import Mathlib

/-!
Verification development for the album sales dashboard (src/app.py).

The pipeline under study is the callback update_dashboard together with
process_album_data: decode an uploaded payload, build a pandas DataFrame
from the parsed JSON document, coerce the US_peak_chart_post column with
to_numeric(errors="coerce"), and derive five figure payloads (line, bar,
scatter, heatmap, treemap) plus an error-message string.

Modelling conventions:
- DataFrame cells are numbers, strings, NaN, or opaque non-scalar
  objects; numeric values are modelled as integers (every position and
  year the pipeline exercises is integral).
- Python exceptions caught by the callback are modelled as Except; the
  text of library exception messages is modelled without the quote
  characters Python prints (str(KeyError("year")) is modelled as
  "KeyError: year").
- The transport decode (data-URI split, base64, json.loads) is library
  code outside the repository; it enters update_dashboard as a function
  argument returning Except, standing for json.loads producing a
  document or the decode chain raising.
-/

namespace SalesDash

/-- A pandas cell as used by this app: a numeric value, a string, a
missing value (NaN, which also stands for JSON null and for absent
fields), or an opaque non-scalar object (nested array or mapping). -/
inductive Cell where
  | cNum (n : Int)
  | cStr (s : String)
  | cNaN
  | cObj
deriving DecidableEq

def Cell.isNum : Cell → Bool
  | .cNum _ => true
  | _ => false

def Cell.isStr : Cell → Bool
  | .cStr _ => true
  | _ => false

/-- Scalar cells are the ones to_numeric accepts without raising. -/
def Cell.isScalar : Cell → Bool
  | .cObj => false
  | _ => true

/-- pandas notna: everything except NaN counts as present. -/
def notNA : Cell → Bool
  | .cNaN => false
  | _ => true

/-- A parsed JSON document, as json.loads returns it. -/
inductive Json where
  | jNull
  | jNum (n : Int)
  | jStr (s : String)
  | jArr (xs : List Json)
  | jObj (fields : List (String × Json))

/-- Numeric value of a nonempty all-digit character list. -/
def digitsVal? : List Char → Option Nat
  | [] => none
  | cs =>
    if cs.all Char.isDigit
      then some (cs.foldl (fun a c => a * 10 + (c.toNat - 48)) 0)
      else none

def trimSpaces (cs : List Char) : List Char :=
  ((cs.dropWhile (fun c => c == ' ')).reverse.dropWhile (fun c => c == ' ')).reverse

/-- The numeric-string parse performed by pandas.to_numeric: an optional
sign and a nonempty digit run, surrounding spaces allowed.  Fractional
and exponent forms are outside the integer model.  The sentinel "-" has
no digits and therefore fails to parse. -/
def parseNumStr? (s : String) : Option Int :=
  match trimSpaces s.data with
  | '-' :: rest => (digitsVal? rest).map (fun n => -(n : Int))
  | '+' :: rest => (digitsVal? rest).map (fun n => (n : Int))
  | cs => (digitsVal? cs).map (fun n => (n : Int))

/-- to_numeric(errors="coerce") on one scalar cell: numbers pass
through, strings parse or coerce to NaN, NaN stays NaN. -/
def toNumericCoerce : Cell → Cell
  | .cNum n => .cNum n
  | .cStr s =>
    match parseNumStr? s with
    | some n => .cNum n
    | none => .cNaN
  | .cNaN => .cNaN
  | .cObj => .cObj

/-- to_numeric(errors="coerce") on a column: list and dict entries raise
TypeError even under coerce; columns of scalar cells never raise. -/
def toNumericCol (cells : List Cell) : Except String (List Cell) :=
  if cells.all Cell.isScalar then .ok (cells.map toNumericCoerce)
  else .error "TypeError: Invalid object type"

/-- A DataFrame: named columns over rectangular rows of cells. -/
structure Frame where
  cols : List String
  rows : List (List Cell)
deriving DecidableEq

def emptyFrame : Frame := { cols := [], rows := [] }

/-- Position of a column label in a column index. -/
def colIdx? (name : String) : List String → Option Nat
  | [] => none
  | c :: cs => if c == name then some 0 else (colIdx? name cs).map (fun i => i + 1)

/-- Column read df[name]: KeyError when the label is absent. -/
def Frame.getCol (df : Frame) (name : String) : Except String (List Cell) :=
  match colIdx? name df.cols with
  | none => .error ("KeyError: " ++ name)
  | some i => .ok (df.rows.map (fun r => r.getD i .cNaN))

/-- Column write df[name] = col: replaces the column when the label
exists and appends a new column otherwise (pandas assignment). -/
def Frame.setCol (df : Frame) (name : String) (col : List Cell) : Frame :=
  match colIdx? name df.cols with
  | some i => { df with rows := df.rows.zipWith (fun r c => r.set i c) col }
  | none =>
    { cols := df.cols ++ [name],
      rows := df.rows.zipWith (fun r c => r ++ [c]) col }

/-- Boolean-mask row selection df[mask]; the selected rows keep their
relative order. -/
def Frame.filterRows (df : Frame) (mask : List Bool) : Frame :=
  { cols := df.cols,
    rows := ((df.rows.zip mask).filter (fun p => p.2)).map (fun p => p.1) }

def scalarToCell : Json → Cell
  | .jNum n => .cNum n
  | .jStr s => .cStr s
  | .jNull => .cNaN
  | _ => .cObj

def asObj? : Json → Option (List (String × Json))
  | .jObj fields => some fields
  | _ => none

def asArr? : Json → Option (List Json)
  | .jArr xs => some xs
  | _ => none

/-- Keys of a record sequence in order of first appearance: the column
index pandas builds for a list-of-dicts input. -/
def collectCols (objs : List (List (String × Json))) : List String :=
  objs.foldl (fun acc o =>
    acc ++ ((o.map Prod.fst).filter (fun k => !(acc.contains k)))) []

/-- Value of field k in record o, NaN when the field is absent. -/
def fieldCell (o : List (String × Json)) (k : String) : Cell :=
  match o.lookup k with
  | some v => scalarToCell v
  | none => .cNaN

/-- pandas.DataFrame on a list of dicts: one row per record over the
union of keys, absent fields filled with NaN.  An empty list yields a
frame with no columns at all. -/
def rowFrame (objs : List (List (String × Json))) : Frame :=
  { cols := collectCols objs,
    rows := objs.map (fun o => (collectCols objs).map (fieldCell o)) }

/-- pandas.DataFrame on a dict: all-list values of equal length build a
column-oriented frame (one row per index); unequal lengths raise; a
dict whose values are not all lists raises in the all-scalar case and
is modelled as raising in the mixed case as well (pandas broadcasts
some mixed shapes, which this app never exercises). -/
def colFrame (fields : List (String × Json)) : Except String Frame :=
  match fields.mapM (fun f => (asArr? f.2).map (fun xs => (f.1, xs))) with
  | some cols =>
    match cols.head? with
    | none => .ok emptyFrame
    | some first =>
      if cols.all (fun c => c.2.length == first.2.length) then
        .ok { cols := cols.map Prod.fst,
              rows := (List.range first.2.length).map (fun i =>
                cols.map (fun c => scalarToCell (c.2.getD i .jNull))) }
      else .error "ValueError: All arrays must be of the same length"
  | none => .error "ValueError: DataFrame from mapping with non-list values"

/-- The record list of a sequence in which every element is a mapping,
none otherwise. -/
def allObjs? : List Json → Option (List (List (String × Json)))
  | [] => some []
  | x :: xs =>
    match asObj? x, allObjs? xs with
    | some o, some os => some (o :: os)
    | _, _ => none

/-- pandas.DataFrame applied to a decoded JSON document.  A sequence of
records builds a row frame; a sequence containing a non-record is
modelled as the constructor raising (pandas builds positional columns
there, after which the pipeline fails at the named-column read either
way); a mapping builds a column frame; null builds an empty frame;
scalars raise. -/
def dataFrameOfJson : Json → Except String Frame
  | .jArr xs =>
    match allObjs? xs with
    | some objs => .ok (rowFrame objs)
    | none => .error "ValueError: DataFrame from a non-record sequence"
  | .jObj fields => colFrame fields
  | .jNull => .ok emptyFrame
  | .jNum _ => .error "ValueError: DataFrame constructor not properly called!"
  | .jStr _ => .error "ValueError: DataFrame constructor not properly called!"

/-- process_album_data: convert the parsed document to a DataFrame and
coerce the US_peak_chart_post column with to_numeric(errors="coerce").
Reading the column raises KeyError when it is absent (in particular on
the empty frame built from the empty record collection). -/
def process_album_data (albumData : Json) : Except String Frame := do
  let df ← dataFrameOfJson albumData
  let col ← df.getCol "US_peak_chart_post"
  let col2 ← toNumericCol col
  pure (df.setCol "US_peak_chart_post" col2)

/-- Insert a into an le-sorted list, before the first element it
compares le to. -/
def insertLE (le : α → α → Bool) (a : α) : List α → List α
  | [] => [a]
  | b :: l => if le a b then a :: b :: l else b :: insertLE le a l

/-- Insertion sort by a Bool comparison. -/
def sortLE (le : α → α → Bool) (l : List α) : List α :=
  l.foldr (insertLE le) []

/-- Occurrence counts of the distinct non-NaN values of a column; the
NaN drop is the pandas value_counts default (dropna=True). -/
def countsRaw (cells : List Cell) : List (Cell × Nat) :=
  let ks := cells.filter notNA
  ks.dedup.map (fun k => (k, ks.count k))

/-- Series.value_counts: counts of the distinct non-NaN values, in
descending count order. -/
def value_counts (cells : List Cell) : List (Cell × Nat) :=
  sortLE (fun p q => decide (q.2 ≤ p.2)) (countsRaw cells)

/-- Index comparison used by sort_index: numbers compare numerically,
strings lexicographically; comparing across types raises TypeError. -/
def cellLEb : Cell → Cell → Bool
  | .cNum a, .cNum b => decide (a ≤ b)
  | .cStr a, .cStr b => decide (a < b) || a == b
  | _, _ => false

/-- Series.sort_index on value_counts output: ascending by index key;
raises on an index mixing incomparable types. -/
def sort_index (ps : List (Cell × Nat)) : Except String (List (Cell × Nat)) :=
  if ps.all (fun p => p.1.isNum) || ps.all (fun p => p.1.isStr) then
    .ok (sortLE (fun p q => cellLEb p.1 q.1) ps)
  else .error "TypeError: unorderable index types"

/-- release_freq: the year counts of the whole table, NaN years dropped
by value_counts, sorted ascending by year. -/
def release_freq (years : List Cell) : Except String (List (Cell × Nat)) :=
  sort_index (value_counts years)

/-- get_performance_tier: NaN and positions above 50 map to No Chart;
5, 10 and 50 bound the tiers inclusively, first match winning.  On a
string the Python comparison with an int would raise TypeError; the
normalized column it is applied to never holds strings. -/
def get_performance_tier : Cell → Except String String
  | .cNaN => .ok "No Chart"
  | .cNum n =>
    if n ≤ 5 then .ok "Top 5"
    else if n ≤ 10 then .ok "Top 10"
    else if n ≤ 50 then .ok "Top 50"
    else .ok "No Chart"
  | _ => .error "TypeError: comparison of non-numeric position"

/-- Series.apply(get_performance_tier), producing the new string-valued
performance_tier column. -/
def applyTierCol (cells : List Cell) : Except String (List Cell) :=
  cells.mapM (fun c => (get_performance_tier c).map Cell.cStr)

/-- The data payloads of the five figures update_dashboard builds, in
source order: line, bar, scatter, heatmap, treemap.  Layout-only calls
(titles, axis inversion, colorscales) carry no data and are omitted. -/
structure Views where
  lineX : List Cell
  lineY : List Cell
  barX : List Cell
  barY : List Nat
  scatterX : List Cell
  scatterY : List Cell
  scatterText : List Cell
  heatZ : List (List Cell)
  heatX : List Cell
  heatY : List String
  treemapLabels : List Cell
  treemapValues : List Nat
deriving DecidableEq

/-- The bare go.Figure() placeholders returned on the error path. -/
def emptyViews : Views :=
  { lineX := [], lineY := [], barX := [], barY := [], scatterX := [],
    scatterY := [], scatterText := [], heatZ := [], heatX := [],
    heatY := [], treemapLabels := [], treemapValues := [] }

/-- The five derivations of update_dashboard after process_album_data,
in source order.  charting is the boolean-mask selection on notna of
the normalized position column; heatZ is reshape(-1, 1) of the charting
positions: one row of length one per charting record. -/
def computeViews (df : Frame) : Except String Views := do
  let posCol ← df.getCol "US_peak_chart_post"
  let charting := df.filterRows (posCol.map notNA)
  let chAlbum ← charting.getCol "album"
  let chPos ← charting.getCol "US_peak_chart_post"
  let years ← df.getCol "year"
  let freq ← release_freq years
  let chYear ← charting.getCol "year"
  let tiers ← applyTierCol posCol
  let tierCounts := value_counts tiers
  pure { lineX := chAlbum, lineY := chPos,
         barX := freq.map Prod.fst, barY := freq.map Prod.snd,
         scatterX := chYear, scatterY := chPos, scatterText := chAlbum,
         heatZ := chPos.map (fun c => [c]),
         heatX := chYear, heatY := ["Chart Position"],
         treemapLabels := tierCounts.map Prod.fst,
         treemapValues := tierCounts.map Prod.snd }

/-- The try-block body of update_dashboard from json.loads output on:
DataFrame construction, position normalization, five derivations. -/
def runPipeline (j : Json) : Except String Views := do
  computeViews (← process_album_data j)

/-- update_dashboard.  A falsy contents value (None or the empty
string) short-circuits to placeholder figures and a fixed message
before any decoding.  Otherwise the decode result feeds the pipeline;
every failure is caught and mapped to placeholder figures plus the
prefixed error message, and success pairs the five views with the
empty message. -/
def update_dashboard (decode : String → Except String Json)
    (contents : Option String) : Views × String :=
  match contents with
  | none => (emptyViews, "Please upload a JSON file")
  | some s =>
    if s = "" then (emptyViews, "Please upload a JSON file")
    else
      match (do runPipeline (← decode s) : Except String Views) with
      | .ok v => (v, "")
      | .error e => (emptyViews, "Error processing file: " ++ e)

/-- An AlbumTable over the three modelled fields, as the frame whose
row i carries (album, year, normalized position) of record i.  Used to
state table-level claims about the aggregations. -/
def mkTable (rs : List (Cell × Cell × Cell)) : Frame :=
  { cols := ["album", "year", "US_peak_chart_post"],
    rows := rs.map (fun r => [r.1, r.2.1, r.2.2]) }

/-- The top-level payload shape the spec demands: a sequence of
mappings. -/
def isSeqOfMappings : Json → Bool
  | .jArr xs => xs.all (fun x => (asObj? x).isSome)
  | _ => false

/-- The three-record scenario from the spec: A charts at 3 in 2000, B
did not chart (sentinel) in 2000, C charts at 7 in 2001. -/
def scenarioJson : Json :=
  .jArr
    [.jObj [("album", .jStr "A"), ("year", .jNum 2000),
            ("US_peak_chart_post", .jStr "3")],
     .jObj [("album", .jStr "B"), ("year", .jNum 2000),
            ("US_peak_chart_post", .jStr "-")],
     .jObj [("album", .jStr "C"), ("year", .jNum 2001),
            ("US_peak_chart_post", .jStr "7")]]

/-- The scenario table after ingestion: normalized positions, one row
per record. -/
def scenarioTable : List (Cell × Cell × Cell) :=
  [(.cStr "A", .cNum 2000, .cNum 3),
   (.cStr "B", .cNum 2000, .cNaN),
   (.cStr "C", .cNum 2001, .cNum 7)]

/-- The table of missingYearJson after ingestion: record B carries a
NaN year. -/
def missingYearTable : List (Cell × Cell × Cell) :=
  [(.cStr "A", .cNum 2000, .cNum 3), (.cStr "B", .cNaN, .cNum 2)]

/-- Two records, the second without any year field. -/
def missingYearJson : Json :=
  .jArr
    [.jObj [("album", .jStr "A"), ("year", .jNum 2000),
            ("US_peak_chart_post", .jStr "3")],
     .jObj [("album", .jStr "B"), ("US_peak_chart_post", .jStr "2")]]

/-- A top-level mapping (not a sequence of records) from the three
field names to equal-length lists: pandas accepts it column-wise. -/
def colMappingJson : Json :=
  .jObj [("album", .jArr [.jStr "A"]),
         ("year", .jArr [.jNum 2000]),
         ("US_peak_chart_post", .jArr [.jStr "3"])]

/-! ## Shared lemmas -/

/-- The failure message built by the boundary is never empty. -/
lemma errMsg_ne_empty (e : String) : "Error processing file: " ++ e ≠ "" := by
  intro h
  have h2 := congrArg String.length h
  rw [String.length_append] at h2
  have h3 : ("Error processing file: " : String).length = 23 := rfl
  have h4 : ("" : String).length = 0 := rfl
  rw [h3, h4] at h2
  omega

/-- Except bind on a success value just applies the continuation. -/
lemma bindOk (a : α) (f : α → Except ε β) :
    (Except.ok a : Except ε α) >>= f = f a := rfl

/-- Except bind on an error propagates the error. -/
lemma bindErr (e : ε) (f : α → Except ε β) :
    (Except.error e : Except ε α) >>= f = Except.error e := rfl

/-- Inserting into a sorted prefix is a permutation of consing. -/
lemma insertLE_perm (le : α → α → Bool) (a : α) :
    ∀ l : List α, List.Perm (insertLE le a l) (a :: l) := by
  intro l
  induction l with
  | nil => exact List.Perm.refl _
  | cons b t ih =>
    simp only [insertLE]
    by_cases h : le a b
    · rw [if_pos h]
    · rw [if_neg h]
      exact (ih.cons b).trans ((List.Perm.swap b a t).symm)

/-- Insertion sort permutes its input. -/
lemma sortLE_perm (le : α → α → Bool) :
    ∀ l : List α, List.Perm (sortLE le l) l := by
  intro l
  induction l with
  | nil => exact List.Perm.refl _
  | cons a t ih =>
    exact (insertLE_perm le a (sortLE le t)).trans (ih.cons a)

/-- Mask-filtering two parallel maps of the same list is filtering the
list and mapping afterwards. -/
lemma zip_map_filter (f : α → β) (p : α → Bool) :
    ∀ rs : List α,
      ((((rs.map f).zip (rs.map p)).filter (fun x => x.2)).map (fun x => x.1))
        = (rs.filter p).map f := by
  intro rs
  induction rs with
  | nil => rfl
  | cons a t ih =>
    by_cases h : p a
    · simp [List.filter_cons, h, ih]
    · simp [List.filter_cons, h, ih]

/-- Filtering a mapped list filters the source. -/
lemma filter_of_map (p : β → Bool) (g : α → β) :
    ∀ l : List α, (l.map g).filter p = (l.filter (fun a => p (g a))).map g := by
  intro l
  induction l with
  | nil => rfl
  | cons a t ih =>
    by_cases h : p (g a)
    · simp [List.filter_cons, h, ih]
    · simp [List.filter_cons, h, ih]

/-- The album column of an AlbumTable frame. -/
lemma mkTable_album_col (rs : List (Cell × Cell × Cell)) :
    (mkTable rs).getCol "album" = .ok (rs.map (fun r => r.1)) := by
  have h : colIdx? "album" ["album", "year", "US_peak_chart_post"] = some 0 := rfl
  simp only [mkTable, Frame.getCol, h, List.map_map]
  simp [Function.comp]

/-- The year column of an AlbumTable frame. -/
lemma mkTable_year_col (rs : List (Cell × Cell × Cell)) :
    (mkTable rs).getCol "year" = .ok (rs.map (fun r => r.2.1)) := by
  have h : colIdx? "year" ["album", "year", "US_peak_chart_post"] = some 1 := rfl
  simp only [mkTable, Frame.getCol, h, List.map_map]
  simp [Function.comp]

/-- The position column of an AlbumTable frame. -/
lemma mkTable_pos_col (rs : List (Cell × Cell × Cell)) :
    (mkTable rs).getCol "US_peak_chart_post" = .ok (rs.map (fun r => r.2.2)) := by
  have h : colIdx? "US_peak_chart_post" ["album", "year", "US_peak_chart_post"]
      = some 2 := rfl
  simp only [mkTable, Frame.getCol, h, List.map_map]
  simp [Function.comp]

/-- Selecting the rows whose position is present turns an AlbumTable
frame into the AlbumTable frame of the charting subset. -/
lemma filterRows_mkTable (rs : List (Cell × Cell × Cell)) :
    (mkTable rs).filterRows ((rs.map (fun r => r.2.2)).map notNA)
      = mkTable (rs.filter (fun r => notNA r.2.2)) := by
  simp only [mkTable, Frame.filterRows, List.map_map]
  refine congrArg (fun rows => Frame.mk _ rows) ?_
  have h := zip_map_filter (fun r : Cell × Cell × Cell => [r.1, r.2.1, r.2.2])
    (fun r : Cell × Cell × Cell => notNA r.2.2) rs
  simpa [Function.comp] using h

/-- Except bind on a success value applies the continuation (method
form). -/
lemma exBindOk (a : α) (f : α → Except ε β) :
    (Except.ok a : Except ε α).bind f = f a := rfl

/-- Except bind on an error propagates the error (method form). -/
lemma exBindErr (e : ε) (f : α → Except ε β) :
    (Except.error e : Except ε α).bind f = Except.error e := rfl

/-- The five derivations on an AlbumTable frame, written out: the only
fallible steps left are the year histogram and the tier column. -/
lemma computeViews_mkTable (rs : List (Cell × Cell × Cell)) :
    computeViews (mkTable rs) =
      (release_freq (rs.map (fun r => r.2.1))).bind (fun freq =>
        (applyTierCol (rs.map (fun r => r.2.2))).bind (fun tiers =>
          .ok { lineX := (rs.filter (fun r => notNA r.2.2)).map (fun r => r.1),
                lineY := (rs.filter (fun r => notNA r.2.2)).map (fun r => r.2.2),
                barX := freq.map Prod.fst,
                barY := freq.map Prod.snd,
                scatterX := (rs.filter (fun r => notNA r.2.2)).map (fun r => r.2.1),
                scatterY := (rs.filter (fun r => notNA r.2.2)).map (fun r => r.2.2),
                scatterText := (rs.filter (fun r => notNA r.2.2)).map (fun r => r.1),
                heatZ := ((rs.filter (fun r => notNA r.2.2)).map (fun r => r.2.2)).map
                  (fun c => [c]),
                heatX := (rs.filter (fun r => notNA r.2.2)).map (fun r => r.2.1),
                heatY := ["Chart Position"],
                treemapLabels := (value_counts tiers).map Prod.fst,
                treemapValues := (value_counts tiers).map Prod.snd })) := by
  simp only [computeViews, mkTable_pos_col, bindOk, filterRows_mkTable,
    mkTable_album_col, mkTable_year_col]
  rfl

lemma notNA_of_isNum (c : Cell) (h : c.isNum = true) : notNA c = true := by
  cases c <;> simp_all [Cell.isNum, notNA]

/-- Sorting count pairs does not change the count total. -/
lemma sortLE_map_snd_sum (le : α × Nat → α × Nat → Bool) (ps : List (α × Nat)) :
    ((sortLE le ps).map Prod.snd).sum = (ps.map Prod.snd).sum :=
  ((sortLE_perm le ps).map Prod.snd).sum_eq

/-- value_counts totals exactly the non-NaN entries of the column. -/
lemma value_counts_sum (cells : List Cell) :
    ((value_counts cells).map Prod.snd).sum = (cells.filter notNA).length := by
  unfold value_counts countsRaw
  rw [sortLE_map_snd_sum, List.map_map]
  simpa [Function.comp] using List.sum_map_count_dedup_eq_length (cells.filter notNA)

lemma countsRaw_keys (cells : List Cell) :
    ∀ p ∈ countsRaw cells, p.1 ∈ cells.filter notNA := by
  unfold countsRaw
  intro p hp
  obtain ⟨k, hk, rfl⟩ := List.mem_map.mp hp
  exact List.mem_dedup.mp hk

lemma value_counts_keys_num (cells : List Cell)
    (h : ∀ c ∈ cells, c.isNum = true) :
    (value_counts cells).all (fun p => p.1.isNum) = true := by
  rw [List.all_eq_true]
  intro p hp
  have hp2 : p ∈ countsRaw cells := by
    unfold value_counts at hp
    exact (sortLE_perm _ _).mem_iff.mp hp
  have hmem := countsRaw_keys cells p hp2
  exact h p.1 (List.mem_filter.mp hmem).1

lemma sort_index_ok_of_num (ps : List (Cell × Nat))
    (h : ps.all (fun p => p.1.isNum) = true) :
    sort_index ps = .ok (sortLE (fun p q => cellLEb p.1 q.1) ps) := by
  unfold sort_index
  rw [h, Bool.true_or, if_pos rfl]

/-- On an all-numeric year column the histogram succeeds and its
counts total the column length. -/
lemma release_freq_sum (years : List Cell) (hnum : ∀ c ∈ years, c.isNum = true) :
    release_freq years
      = .ok (sortLE (fun p q => cellLEb p.1 q.1) (value_counts years)) ∧
    ((sortLE (fun p q => cellLEb p.1 q.1) (value_counts years)).map Prod.snd).sum
      = years.length := by
  constructor
  · unfold release_freq
    exact sort_index_ok_of_num _ (value_counts_keys_num years hnum)
  · rw [sortLE_map_snd_sum, value_counts_sum,
      List.filter_eq_self.mpr (fun c hc => notNA_of_isNum c (hnum c hc))]

/-- Whenever the histogram succeeds its counts total the non-NaN
entries of the year column - NaN years are silently dropped. -/
lemma release_freq_ok_sum (years : List Cell) (freq : List (Cell × Nat))
    (h : release_freq years = .ok freq) :
    (freq.map Prod.snd).sum = (years.filter notNA).length := by
  unfold release_freq sort_index at h
  split at h
  · injection h with h2
    rw [← h2, sortLE_map_snd_sum, value_counts_sum]
  · exact Except.noConfusion h

lemma mem_of_colIdx?_some (name : String) :
    ∀ (l : List String) (i : Nat), colIdx? name l = some i → name ∈ l := by
  intro l
  induction l with
  | nil => intro i h; exact Option.noConfusion h
  | cons c cs ih =>
    intro i h
    unfold colIdx? at h
    by_cases hc : c == name
    · rw [← eq_of_beq hc]
      exact List.mem_cons_self c cs
    · rw [if_neg hc] at h
      cases ho : colIdx? name cs with
      | none => rw [ho] at h; exact Option.noConfusion h
      | some j => exact List.mem_cons_of_mem c (ih j ho)

lemma colIdx?_none_not_mem (name : String) :
    ∀ l : List String, colIdx? name l = none → name ∉ l := by
  intro l
  induction l with
  | nil => intro _; exact List.not_mem_nil name
  | cons c cs ih =>
    intro h hmem
    unfold colIdx? at h
    by_cases hc : c == name
    · rw [if_pos hc] at h
      exact Option.noConfusion h
    · rw [if_neg hc] at h
      rcases List.mem_cons.mp hmem with h1 | h2
      · subst h1
        exact hc (beq_self_eq_true _)
      · cases ho : colIdx? name cs with
        | some j => rw [ho] at h; exact Option.noConfusion h
        | none => exact ih ho h2

lemma getCol_ok_mem (df : Frame) (name : String) (ys : List Cell)
    (h : df.getCol name = .ok ys) : name ∈ df.cols := by
  unfold Frame.getCol at h
  cases hc : colIdx? name df.cols with
  | none => rw [hc] at h; exact Except.noConfusion h
  | some i => exact mem_of_colIdx?_some name df.cols i hc

/-- Overwriting an existing column does not change the column index. -/
lemma setCol_cols_mem (df : Frame) (name : String) (col : List Cell)
    (h : name ∈ df.cols) : (df.setCol name col).cols = df.cols := by
  unfold Frame.setCol
  cases hc : colIdx? name df.cols with
  | some i => rfl
  | none => exact absurd h (colIdx?_none_not_mem name df.cols hc)

lemma allObjs?_map :
    ∀ objs : List (List (String × Json)),
      allObjs? (objs.map Json.jObj) = some objs := by
  intro objs
  induction objs with
  | nil => rfl
  | cons o t ih => simp only [List.map_cons, allObjs?, asObj?, ih]

lemma mem_collectCols_aux (k : String) :
    ∀ (objs : List (List (String × Json))) (acc : List String),
      k ∈ objs.foldl (fun acc o =>
        acc ++ ((o.map Prod.fst).filter (fun x => !(acc.contains x)))) acc →
      k ∈ acc ∨ ∃ o ∈ objs, k ∈ o.map Prod.fst := by
  intro objs
  induction objs with
  | nil =>
    intro acc h
    exact Or.inl h
  | cons o t ih =>
    intro acc h
    rw [List.foldl_cons] at h
    rcases ih _ h with hacc | ⟨o2, ho2, hk⟩
    · rcases List.mem_append.mp hacc with h1 | h2
      · exact Or.inl h1
      · exact Or.inr ⟨o, List.mem_cons_self o t, (List.mem_filter.mp h2).1⟩
    · exact Or.inr ⟨o2, List.mem_cons_of_mem o ho2, hk⟩

/-- Every column of a row frame comes from some record key. -/
lemma mem_collectCols (objs : List (List (String × Json))) (k : String)
    (h : k ∈ collectCols objs) : ∃ o ∈ objs, k ∈ o.map Prod.fst := by
  unfold collectCols at h
  rcases mem_collectCols_aux k objs [] h with h1 | h2
  · exact absurd h1 (List.not_mem_nil k)
  · exact h2

/-- A successful process_album_data run leaves the column index of the
constructed frame unchanged. -/
lemma process_ok_cols (j : Json) (df2 : Frame)
    (h : process_album_data j = .ok df2) :
    ∃ df, dataFrameOfJson j = .ok df ∧ df2.cols = df.cols := by
  unfold process_album_data at h
  cases hd : dataFrameOfJson j with
  | error e => rw [hd, bindErr] at h; exact Except.noConfusion h
  | ok df =>
    rw [hd, bindOk] at h
    cases hg : df.getCol "US_peak_chart_post" with
    | error e => rw [hg, bindErr] at h; exact Except.noConfusion h
    | ok col =>
      rw [hg, bindOk] at h
      cases hn : toNumericCol col with
      | error e => rw [hn, bindErr] at h; exact Except.noConfusion h
      | ok col2 =>
        rw [hn, bindOk] at h
        injection h with h2
        refine ⟨df, rfl, ?_⟩
        rw [← h2]
        exact setCol_cols_mem df _ col2 (getCol_ok_mem df _ col hg)

/-- A successful run of the five derivations needs a year column. -/
lemma computeViews_ok_year_mem (df : Frame) (v : Views)
    (h : computeViews df = .ok v) : "year" ∈ df.cols := by
  unfold computeViews at h
  cases h1 : df.getCol "US_peak_chart_post" with
  | error e => rw [h1, bindErr] at h; exact Except.noConfusion h
  | ok posCol =>
    simp only [h1, bindOk] at h
    cases h2 : (df.filterRows (posCol.map notNA)).getCol "album" with
    | error e => rw [h2, bindErr] at h; exact Except.noConfusion h
    | ok chAlbum =>
      simp only [h2, bindOk] at h
      cases h3 : (df.filterRows (posCol.map notNA)).getCol "US_peak_chart_post" with
      | error e => rw [h3, bindErr] at h; exact Except.noConfusion h
      | ok chPos =>
        simp only [h3, bindOk] at h
        cases h4 : df.getCol "year" with
        | error e => rw [h4, bindErr] at h; exact Except.noConfusion h
        | ok years => exact getCol_ok_mem df "year" years h4

/-- A computable success check yields the success value. -/
lemma views_ok_of_isOk (df : Frame) (h : (computeViews df).isOk = true) :
    ∃ v, computeViews df = .ok v := by
  cases h2 : computeViews df with
  | ok v => exact ⟨v, rfl⟩
  | error e => rw [h2] at h; exact Bool.noConfusion h

/-! ## Claim theorems -/

/-- C1: for every invocation of update_dashboard with a non-empty
contents value, either the decode-and-pipeline run succeeds and the
result is the five computed views together with the empty error
string, or the run fails and the result is the five placeholder
figures together with a non-empty error message; no third shape is
possible and no exception escapes (the boundary is a total
function). -/
theorem C1_boundary_error_channel (decode : String → Except String Json)
    (s : String) (hs : s ≠ "") :
    (∃ v, (do runPipeline (← decode s) : Except String Views) = .ok v ∧
      update_dashboard decode (some s) = (v, "")) ∨
    (∃ e, (do runPipeline (← decode s) : Except String Views) = .error e ∧
      update_dashboard decode (some s) =
        (emptyViews, "Error processing file: " ++ e) ∧
      "Error processing file: " ++ e ≠ "") := by
  have hmain : update_dashboard decode (some s) =
      match (do runPipeline (← decode s) : Except String Views) with
      | .ok v => (v, "")
      | .error e => (emptyViews, "Error processing file: " ++ e) := by
    simp only [update_dashboard, if_neg hs]
  cases hX : (do runPipeline (← decode s) : Except String Views) with
  | ok v =>
    left
    rw [hX] at hmain
    exact ⟨v, rfl, hmain⟩
  | error e =>
    right
    rw [hX] at hmain
    exact ⟨e, rfl, hmain, errMsg_ne_empty e⟩

/-- Witness for C1 at a concrete decode and contents value. -/
theorem C1_boundary_error_channel_witness :
    (∃ v, (do runPipeline (← (fun _ : String => Except.ok scenarioJson) "p") :
        Except String Views) = .ok v ∧
      update_dashboard (fun _ => Except.ok scenarioJson) (some "p") = (v, "")) ∨
    (∃ e, (do runPipeline (← (fun _ : String => Except.ok scenarioJson) "p") :
        Except String Views) = .error e ∧
      update_dashboard (fun _ => Except.ok scenarioJson) (some "p") =
        (emptyViews, "Error processing file: " ++ e) ∧
      "Error processing file: " ++ e ≠ "") :=
  C1_boundary_error_channel (fun _ => Except.ok scenarioJson) "p" (by decide)

/-- C2: normalization of a US_peak_chart_post value maps the sentinel
"-" to NaN, maps NaN (null) to NaN, fills an absent field with NaN,
maps any string that fails the numeric parse to NaN and any string
that parses to its parsed number, passes numbers through, and never
raises on a column of scalar cells. -/
theorem C2_coercion_law :
    toNumericCoerce (.cStr "-") = .cNaN ∧
    toNumericCoerce .cNaN = .cNaN ∧
    (∀ o : List (String × Json), o.lookup "US_peak_chart_post" = none →
      fieldCell o "US_peak_chart_post" = .cNaN) ∧
    (∀ s, parseNumStr? s = none → toNumericCoerce (.cStr s) = .cNaN) ∧
    (∀ s n, parseNumStr? s = some n → toNumericCoerce (.cStr s) = .cNum n) ∧
    (∀ n, toNumericCoerce (.cNum n) = .cNum n) ∧
    (∀ cells : List Cell, (∀ c ∈ cells, c.isScalar = true) →
      toNumericCol cells = .ok (cells.map toNumericCoerce)) := by
  refine ⟨rfl, rfl, ?_, ?_, ?_, fun n => rfl, ?_⟩
  · intro o h
    unfold fieldCell
    rw [h]
  · intro s h
    simp only [toNumericCoerce, h]
  · intro s n h
    simp only [toNumericCoerce, h]
  · intro cells h
    unfold toNumericCol
    rw [if_pos (List.all_eq_true.mpr h)]

/-- Witness for C2 at concrete values. -/
theorem C2_coercion_law_witness :
    fieldCell [("album", Json.jStr "B")] "US_peak_chart_post" = .cNaN ∧
    toNumericCoerce (.cStr "n/a") = .cNaN ∧
    toNumericCoerce (.cStr "12") = .cNum 12 ∧
    toNumericCol [.cStr "-", .cNum 3, .cNaN] =
      .ok [.cNaN, .cNum 3, .cNaN] :=
  ⟨C2_coercion_law.2.2.1 [("album", Json.jStr "B")] rfl,
   C2_coercion_law.2.2.2.1 "n/a" rfl,
   C2_coercion_law.2.2.2.2.1 "12" 12 rfl,
   C2_coercion_law.2.2.2.2.2.2 [.cStr "-", .cNum 3, .cNaN] (by decide)⟩

/-- C3: the tier classification is total on normalized cells and lands
in the four labels; on numbers the four labels characterize exactly
the first-match precedence ladder with inclusive bounds, so exactly
one tier applies; the boundary positions 5, 10 and 50 classify as
Top 5, Top 10 and Top 50. -/
theorem C3_tier_partition :
    (∀ c : Cell, c = .cNaN ∨ c.isNum = true →
      ∃ t, get_performance_tier c = .ok t ∧
        (t = "Top 5" ∨ t = "Top 10" ∨ t = "Top 50" ∨ t = "No Chart")) ∧
    get_performance_tier .cNaN = .ok "No Chart" ∧
    (∀ n : Int,
      (get_performance_tier (.cNum n) = .ok "Top 5" ↔ n ≤ 5) ∧
      (get_performance_tier (.cNum n) = .ok "Top 10" ↔ 5 < n ∧ n ≤ 10) ∧
      (get_performance_tier (.cNum n) = .ok "Top 50" ↔ 10 < n ∧ n ≤ 50) ∧
      (get_performance_tier (.cNum n) = .ok "No Chart" ↔ 50 < n)) ∧
    get_performance_tier (.cNum 5) = .ok "Top 5" ∧
    get_performance_tier (.cNum 10) = .ok "Top 10" ∧
    get_performance_tier (.cNum 50) = .ok "Top 50" := by
  have hchar : ∀ n : Int,
      (get_performance_tier (.cNum n) = .ok "Top 5" ↔ n ≤ 5) ∧
      (get_performance_tier (.cNum n) = .ok "Top 10" ↔ 5 < n ∧ n ≤ 10) ∧
      (get_performance_tier (.cNum n) = .ok "Top 50" ↔ 10 < n ∧ n ≤ 50) ∧
      (get_performance_tier (.cNum n) = .ok "No Chart" ↔ 50 < n) := by
    intro n
    simp only [get_performance_tier]
    split_ifs with h1 h2 h3 <;>
      refine ⟨?_, ?_, ?_, ?_⟩ <;> simp_all <;> omega
  refine ⟨?_, rfl, hchar, rfl, rfl, rfl⟩
  intro c hc
  rcases hc with h | h
  · exact ⟨"No Chart", by rw [h]; exact rfl, by simp⟩
  · cases c with
    | cNum n =>
      simp only [get_performance_tier]
      split_ifs <;> exact ⟨_, rfl, by simp⟩
    | cStr s => simp [Cell.isNum] at h
    | cNaN => simp [Cell.isNum] at h
    | cObj => simp [Cell.isNum] at h

/-- Witness for C3 at concrete cells and positions. -/
theorem C3_tier_partition_witness :
    (∃ t, get_performance_tier (.cNum 7) = .ok t ∧
      (t = "Top 5" ∨ t = "Top 10" ∨ t = "Top 50" ∨ t = "No Chart")) ∧
    (get_performance_tier (.cNum 51) = .ok "No Chart" ↔ (50 : Int) < 51) :=
  ⟨C3_tier_partition.1 (.cNum 7) (Or.inr rfl),
   (C3_tier_partition.2.2.1 51).2.2.2⟩

/-- C4 counterexample: on the empty record collection the run does not
succeed: the empty DataFrame has no US_peak_chart_post column, the
column read raises KeyError, and the boundary returns a non-empty
error message instead of the empty string the claim demands. -/
theorem C4_empty_collection_counterexample :
    runPipeline (.jArr []) = .error "KeyError: US_peak_chart_post" ∧
    (update_dashboard (fun _ => Except.ok (.jArr [])) (some "p")).2 ≠ "" :=
  ⟨rfl, by decide⟩

/-- C4 amended: running the pipeline on the empty record collection []
fails: DataFrame([]) has no columns, reading US_peak_chart_post raises
KeyError, the whole run aborts, and the boundary returns the five
placeholder figures together with the non-empty KeyError message. -/
theorem C4_empty_collection_fails :
    update_dashboard (fun _ => Except.ok (.jArr [])) (some "p") =
      (emptyViews, "Error processing file: KeyError: US_peak_chart_post") ∧
    process_album_data (.jArr []) = .error "KeyError: US_peak_chart_post" :=
  ⟨rfl, rfl⟩

/-- C10: a missing upload (None contents) and an empty upload (empty
string contents) both return the five placeholder figures and the
fixed non-empty message, for every decode function whatsoever - the
pipeline is never consulted. -/
theorem C10_no_upload_message (decode : String → Except String Json) :
    update_dashboard decode none = (emptyViews, "Please upload a JSON file") ∧
    update_dashboard decode (some "") =
      (emptyViews, "Please upload a JSON file") ∧
    "Please upload a JSON file" ≠ "" :=
  ⟨rfl, rfl, by decide⟩

/-- C5: for every AlbumTable (year present and numeric on every
record, as the data model requires), the bar-view counts of the
release-frequency histogram sum to the total number of records in the
table, charting and non-charting alike. -/
theorem C5_histogram_sum (rs : List (Cell × Cell × Cell)) (v : Views)
    (hv : computeViews (mkTable rs) = .ok v)
    (hnum : ∀ r ∈ rs, (r.2.1).isNum = true) :
    v.barY.sum = rs.length := by
  rw [computeViews_mkTable] at hv
  have hyears : ∀ c ∈ rs.map (fun r => r.2.1), c.isNum = true := by
    intro c hc
    obtain ⟨r, hr, rfl⟩ := List.mem_map.mp hc
    exact hnum r hr
  obtain ⟨h1, h2⟩ := release_freq_sum (rs.map (fun r => r.2.1)) hyears
  rw [h1, exBindOk] at hv
  cases hT : applyTierCol (rs.map (fun r => r.2.2)) with
  | error e =>
    rw [hT, exBindErr] at hv
    exact Except.noConfusion hv
  | ok tiers =>
    rw [hT, exBindOk] at hv
    injection hv with h
    rw [← h]
    rw [List.length_map] at h2
    exact h2

/-- Witness for C5 at the three-record scenario table. -/
theorem C5_histogram_sum_witness :
    ∃ v, computeViews (mkTable scenarioTable) = .ok v ∧
      v.barY.sum = scenarioTable.length := by
  obtain ⟨v, hv⟩ := views_ok_of_isOk (mkTable scenarioTable) rfl
  exact ⟨v, hv, C5_histogram_sum scenarioTable v hv (by decide)⟩

/-- C6: the line series pairs exactly the (album, position) of the
charting subset, in table order, and the charting subset is a sublist
of the table - filtering preserves relative order. -/
theorem C6_line_series_table_order (rs : List (Cell × Cell × Cell)) (v : Views)
    (hv : computeViews (mkTable rs) = .ok v) :
    v.lineX.zip v.lineY
      = (rs.filter (fun r => notNA r.2.2)).map (fun r => (r.1, r.2.2)) ∧
    List.Sublist (rs.filter (fun r => notNA r.2.2)) rs := by
  rw [computeViews_mkTable] at hv
  cases hf : release_freq (rs.map (fun r => r.2.1)) with
  | error e =>
    rw [hf, exBindErr] at hv
    exact Except.noConfusion hv
  | ok freq =>
    rw [hf, exBindOk] at hv
    cases hT : applyTierCol (rs.map (fun r => r.2.2)) with
    | error e =>
      rw [hT, exBindErr] at hv
      exact Except.noConfusion hv
    | ok tiers =>
      rw [hT, exBindOk] at hv
      injection hv with h
      rw [← h]
      constructor
      · rw [List.zip_map']
      · exact List.filter_sublist rs

/-- Witness for C6 at the three-record scenario table. -/
theorem C6_line_series_table_order_witness :
    ∃ v, computeViews (mkTable scenarioTable) = .ok v ∧
      v.lineX.zip v.lineY
        = (scenarioTable.filter (fun r => notNA r.2.2)).map (fun r => (r.1, r.2.2)) ∧
      List.Sublist (scenarioTable.filter (fun r => notNA r.2.2)) scenarioTable := by
  obtain ⟨v, hv⟩ := views_ok_of_isOk (mkTable scenarioTable) rfl
  exact ⟨v, hv, C6_line_series_table_order scenarioTable v hv⟩

/-- C7 counterexample: on the scenario table the heat grid has one row
per charting record - here two rows of one cell each - not a single
row with one column per record. -/
theorem C7_heatmap_counterexample :
    (runPipeline scenarioJson).map (fun v => v.heatZ)
      = .ok [[.cNum 3], [.cNum 7]] ∧
    (runPipeline scenarioJson).map (fun v => v.heatZ.length) = .ok 2 ∧
    (2 : Nat) ≠ 1 :=
  ⟨rfl, rfl, by decide⟩

/-- C7 amended: the year-vs-position grid is a single-COLUMN grid with
one ROW per charting record (reshape(-1, 1)): row i holds exactly the
position of the i-th charting record, the x labels are the charting
years in table order, and the single y label is Chart Position. -/
theorem C7_heatmap_column_grid (rs : List (Cell × Cell × Cell)) (v : Views)
    (hv : computeViews (mkTable rs) = .ok v) :
    v.heatZ = ((rs.filter (fun r => notNA r.2.2)).map (fun r => r.2.2)).map
      (fun c => [c]) ∧
    v.heatX = (rs.filter (fun r => notNA r.2.2)).map (fun r => r.2.1) ∧
    v.heatY = ["Chart Position"] ∧
    v.heatZ.length = (rs.filter (fun r => notNA r.2.2)).length ∧
    (∀ row ∈ v.heatZ, row.length = 1) := by
  rw [computeViews_mkTable] at hv
  cases hf : release_freq (rs.map (fun r => r.2.1)) with
  | error e =>
    rw [hf, exBindErr] at hv
    exact Except.noConfusion hv
  | ok freq =>
    rw [hf, exBindOk] at hv
    cases hT : applyTierCol (rs.map (fun r => r.2.2)) with
    | error e =>
      rw [hT, exBindErr] at hv
      exact Except.noConfusion hv
    | ok tiers =>
      rw [hT, exBindOk] at hv
      injection hv with h
      rw [← h]
      refine ⟨rfl, rfl, rfl, by simp, ?_⟩
      intro row hrow
      obtain ⟨c, _, rfl⟩ := List.mem_map.mp hrow
      rfl

/-- Witness for the amended C7 at the three-record scenario table. -/
theorem C7_heatmap_column_grid_witness :
    ∃ v, computeViews (mkTable scenarioTable) = .ok v ∧
      v.heatZ = ((scenarioTable.filter (fun r => notNA r.2.2)).map
        (fun r => r.2.2)).map (fun c => [c]) ∧
      (∀ row ∈ v.heatZ, row.length = 1) := by
  obtain ⟨v, hv⟩ := views_ok_of_isOk (mkTable scenarioTable) rfl
  have h := C7_heatmap_column_grid scenarioTable v hv
  exact ⟨v, hv, h.1, h.2.2.2.2⟩

/-- C8 counterexample: a table containing a record with no year field
does NOT fail: the run succeeds with an empty error message, and the
histogram silently counts only the one record that has a year. -/
theorem C8_missing_year_counterexample :
    (update_dashboard (fun _ => Except.ok missingYearJson) (some "p")).2 = "" ∧
    (runPipeline missingYearJson).map (fun v => (v.barX, v.barY))
      = .ok ([.cNum 2000], [1]) ∧
    (runPipeline missingYearJson).isOk = true :=
  ⟨rfl, rfl, rfl⟩

/-- C8 amended: a record with a missing (NaN) year is silently dropped
from the histogram - the bar counts total exactly the records whose
year is present - and the run fails only when no record carries a
year field at all, in which case the year column is absent and the
whole run ends via the error channel with no partial views. -/
theorem C8_missing_year_amended :
    (∀ (rs : List (Cell × Cell × Cell)) (v : Views),
      computeViews (mkTable rs) = .ok v →
      v.barY.sum = (rs.filter (fun r => notNA r.2.1)).length) ∧
    (∀ objs : List (List (String × Json)),
      (∀ o ∈ objs, "year" ∉ o.map Prod.fst) →
      ∃ e, runPipeline (.jArr (objs.map Json.jObj)) = .error e) := by
  constructor
  · intro rs v hv
    rw [computeViews_mkTable] at hv
    cases hf : release_freq (rs.map (fun r => r.2.1)) with
    | error e =>
      rw [hf, exBindErr] at hv
      exact Except.noConfusion hv
    | ok freq =>
      rw [hf, exBindOk] at hv
      cases hT : applyTierCol (rs.map (fun r => r.2.2)) with
      | error e =>
        rw [hT, exBindErr] at hv
        exact Except.noConfusion hv
      | ok tiers =>
        rw [hT, exBindOk] at hv
        injection hv with h
        rw [← h]
        have hsum := release_freq_ok_sum (rs.map (fun r => r.2.1)) freq hf
        rw [filter_of_map notNA (fun r => r.2.1) rs, List.length_map] at hsum
        exact hsum
  · intro objs hno
    cases hp : runPipeline (.jArr (objs.map Json.jObj)) with
    | error e => exact ⟨e, rfl⟩
    | ok v =>
      exfalso
      unfold runPipeline at hp
      cases hpr : process_album_data (.jArr (objs.map Json.jObj)) with
      | error e =>
        rw [hpr, bindErr] at hp
        exact Except.noConfusion hp
      | ok df2 =>
        rw [hpr, bindOk] at hp
        have hy := computeViews_ok_year_mem df2 v hp
        obtain ⟨df, hdf, hcols⟩ := process_ok_cols _ _ hpr
        have hrow : dataFrameOfJson (.jArr (objs.map Json.jObj))
            = .ok (rowFrame objs) := by
          simp only [dataFrameOfJson, allObjs?_map]
        rw [hrow] at hdf
        injection hdf with hdf2
        rw [hcols, ← hdf2] at hy
        obtain ⟨o, ho, hk⟩ := mem_collectCols objs "year" hy
        exact hno o ho hk

/-- Witness for the amended C8: the two-record table with one NaN year
has bar counts summing to one, and a one-record sequence with no year
key makes the whole run fail. -/
theorem C8_missing_year_amended_witness :
    (∃ v, computeViews (mkTable missingYearTable) = .ok v ∧
      v.barY.sum = (missingYearTable.filter (fun r => notNA r.2.1)).length) ∧
    (∃ e, runPipeline (.jArr ([[("album", Json.jStr "A"),
      ("US_peak_chart_post", Json.jStr "3")]].map Json.jObj)) = .error e) := by
  constructor
  · obtain ⟨v, hv⟩ := views_ok_of_isOk (mkTable missingYearTable) rfl
    exact ⟨v, hv, C8_missing_year_amended.1 missingYearTable v hv⟩
  · exact C8_missing_year_amended.2 _ (by decide)

/-- C9 counterexample: a top-level mapping from the three field names
to equal-length lists is not a sequence of mappings, yet the run
succeeds with an empty error message instead of ending via the error
channel. -/
theorem C9_mapping_payload_counterexample :
    isSeqOfMappings colMappingJson = false ∧
    (update_dashboard (fun _ => Except.ok colMappingJson) (some "p")).2 = "" ∧
    (runPipeline colMappingJson).isOk = true :=
  ⟨rfl, rfl, rfl⟩

/-- C9 amended: ingestion fails via the error channel whenever the
decode-and-parse step fails (invalid text), and scalar top-level
structures fail at DataFrame construction; but a non-sequence
top-level structure need not fail: a mapping of field names to
equal-length lists is accepted column-wise and the run succeeds. -/
theorem C9_ingestion_failure_amended :
    (∀ (decode : String → Except String Json) (s e : String), s ≠ "" →
      decode s = .error e →
      update_dashboard decode (some s)
        = (emptyViews, "Error processing file: " ++ e)) ∧
    (∀ n : Int, runPipeline (.jNum n)
      = .error "ValueError: DataFrame constructor not properly called!") ∧
    (∀ s : String, runPipeline (.jStr s)
      = .error "ValueError: DataFrame constructor not properly called!") ∧
    (runPipeline colMappingJson).isOk = true := by
  refine ⟨?_, fun n => rfl, fun s => rfl, rfl⟩
  intro decode s e hs hdec
  simp only [update_dashboard, if_neg hs, hdec]
  rfl

/-- Witness for the amended C9 at a concrete failing decode and a
concrete scalar payload. -/
theorem C9_ingestion_failure_amended_witness :
    update_dashboard
      (fun _ => (Except.error "Expecting value: line 1 column 1" :
        Except String Json)) (some "notjson")
      = (emptyViews,
         "Error processing file: Expecting value: line 1 column 1") ∧
    runPipeline (.jNum 3)
      = .error "ValueError: DataFrame constructor not properly called!" :=
  ⟨C9_ingestion_failure_amended.1 _ "notjson" _ (by decide) rfl,
   C9_ingestion_failure_amended.2.1 3⟩

end SalesDash

